import Mathlib

/-!
Shallow embedding of `src/external/rawler/src/lib.rs`, the C FFI marshalling
boundary around the external `rawler` raw-image decoder.

Modelling conventions:
* Byte strings (`&str` contents, C char arrays) are `List Nat` of byte values.
* `f32` values are never computed with, only copied verbatim, so they are
  represented by their bit patterns as `Nat`.
* Machine integers are `Nat`/`Int`; the `as c_uint` narrowing in the source is
  `% 2^32`.
* Pointers are modelled as abstract addresses (`Nat`); a nullable pointer is an
  `Option`.
* The external decoder collaborator (`rawler::get_decoder`,
  `Decoder::raw_image`, `Decoder::raw_metadata`) is a black box: its behaviour
  on the given input buffer is a parameter `DecoderBehavior`, each call either
  panicking, returning an error, or returning a value (`RustOutcome`).
-/

namespace RawlerFFI

/-- Outcome of a call into Rust code that can panic, fail with an error
message, or succeed. -/
inductive RustOutcome (α : Type) where
  | panic : RustOutcome α
  | err : String → RustOutcome α
  | ok : α → RustOutcome α
deriving DecidableEq

/-- The 32-byte zero-initialised `[c_char; 32]` buffer (`[0; 32]`). -/
def zeros32 : List Nat := List.replicate 32 0

/-- `CString::new(s).unwrap_or_default()` content bytes: the empty string when
`s` has an interior null byte, otherwise `s` itself. -/
def cstringOrDefault (s : List Nat) : List Nat :=
  if s.contains 0 then [] else s

/-- Embedding of `string_to_fixed_c_chars(s, out)` from lib.rs:9-23: build the
nul-terminated byte sequence, copy `min(bytes.len(), out.len())` bytes into
`out`, and force a terminating zero into the last slot when the copy filled
the whole buffer. Returns the updated `out`. -/
def string_to_fixed_c_chars (s : List Nat) (out : List Nat) : List Nat :=
  let bytes := cstringOrDefault s ++ [0]
  let copy_len := min bytes.length out.length
  let copied := bytes.take copy_len ++ out.drop copy_len
  if copy_len = out.length then copied.set (out.length - 1) 0 else copied

/-- Embedding of `string_to_c_char(s)` from lib.rs:26-29: the heap C string
handed to the caller; an interior null makes `CString::new` fail and the
default (empty) string is allocated instead. -/
def string_to_c_char (s : String) : String :=
  if s.data.contains (Char.ofNat 0) then "" else s

/-- The C-compatible `DataType` tag (lib.rs:33-36). -/
inductive DataType where
  | Integer : DataType
  | Float : DataType
deriving DecidableEq

/-- The C-compatible `Exif` struct (lib.rs:38-49). Rationals `[u32; 2]` and
`[i32; 2]` are pairs. -/
structure Exif where
  orientation : Nat
  exposure_time : Nat × Nat
  fnumber : Nat × Nat
  iso_speed_ratings : Nat
  date_time_original : List Nat
  brightness_value : Int × Int
  exposure_bias : Int × Int
  focal_length : Nat × Nat
  lens_make : List Nat
  lens_model : List Nat
deriving DecidableEq

/-- The zero-initialised `Exif` literal built at lib.rs:157-168. -/
def zeroExif : Exif :=
  { orientation := 0
    exposure_time := (0, 0)
    fnumber := (0, 0)
    iso_speed_ratings := 0
    date_time_original := zeros32
    brightness_value := (0, 0)
    exposure_bias := (0, 0)
    focal_length := (0, 0)
    lens_make := zeros32
    lens_model := zeros32 }

/-- The C-compatible `RawImage` result struct (lib.rs:52-89). `data_ptr` is an
abstract address. -/
structure RawImage where
  make : List Nat
  model : List Nat
  clean_make : List Nat
  clean_model : List Nat
  width : Nat
  height : Nat
  cpp : Nat
  bps : Nat
  cfa : List Nat
  black_levels : List Nat
  white_levels : List Nat
  wb_coeffs : List Nat
  color_matrix : List Nat
  exif : Exif
  data_type : DataType
  data_ptr : Nat
  data_len : Nat
deriving DecidableEq

/-- `rawler::RawImageData`: a vector of `u16` samples or of `f32` samples. -/
inductive RawImageData where
  | Integer : List Nat → RawImageData
  | Float : List Nat → RawImageData
deriving DecidableEq

/-- Element count of the native pixel vector (`data.len()`). -/
def dataLen : RawImageData → Nat
  | RawImageData.Integer d => d.length
  | RawImageData.Float d => d.length

/-- The camera description carried by the native decoded image
(`raw_image.camera`): make/model strings and the CFA pattern name. -/
structure Camera where
  make : List Nat
  model : List Nat
  clean_make : List Nat
  clean_model : List Nat
  cfa_name : List Nat
deriving DecidableEq

/-- The native `rawler::RawImage` fields read by the boundary: dimensions,
the 4-element level and white-balance arrays (results of `as_bayer_array()`
and `wb_coeffs`), the D65 entry of the color-matrix map
(`color_matrix.get(&Illuminant::D65)`), the camera info, the pixel data and
the address of its storage (`data.as_ptr()`). -/
structure NativeRawImage where
  width : Nat
  height : Nat
  cpp : Nat
  bps : Nat
  blacklevel : List Nat
  whitelevel : List Nat
  wb_coeffs : List Nat
  color_matrix_d65 : Option (List Nat)
  camera : Camera
  data : RawImageData
  data_addr : Nat
deriving DecidableEq

/-- The optional native Exif fields read from `metadata.exif`. -/
structure NativeExif where
  orientation : Option Nat
  exposure_time : Option (Nat × Nat)
  fnumber : Option (Nat × Nat)
  iso_speed_ratings : Option Nat
  date_time_original : Option (List Nat)
  brightness_value : Option (Int × Int)
  exposure_bias : Option (Int × Int)
  focal_length : Option (Nat × Nat)
  lens_make : Option (List Nat)
  lens_model : Option (List Nat)
deriving DecidableEq

/-- The native metadata record returned by `decoder.raw_metadata`. -/
structure NativeMetadata where
  exif : NativeExif
deriving DecidableEq

/-- Behaviour of the external decoder collaborator on the given input: the
outcome of `rawler::get_decoder`, of `decoder.raw_image` and of
`decoder.raw_metadata`. -/
structure DecoderBehavior where
  get_decoder : RustOutcome Unit
  raw_image : RustOutcome NativeRawImage
  raw_metadata : RustOutcome NativeMetadata
deriving DecidableEq

/-- The metadata block at lib.rs:193-227: each `if let Some` overwrites the
corresponding zero-initialised field of the `Exif` struct; text fields are
encoded into their zeroed 32-byte buffers. -/
def fillExif (m : NativeExif) : Exif :=
  { orientation := m.orientation.getD 0
    exposure_time := m.exposure_time.getD (0, 0)
    fnumber := m.fnumber.getD (0, 0)
    iso_speed_ratings := m.iso_speed_ratings.getD 0
    date_time_original :=
      match m.date_time_original with
      | none => zeros32
      | some s => string_to_fixed_c_chars s zeros32
    brightness_value := m.brightness_value.getD (0, 0)
    exposure_bias := m.exposure_bias.getD (0, 0)
    focal_length := m.focal_length.getD (0, 0)
    lens_make :=
      match m.lens_make with
      | none => zeros32
      | some s => string_to_fixed_c_chars s zeros32
    lens_model :=
      match m.lens_model with
      | none => zeros32
      | some s => string_to_fixed_c_chars s zeros32 }

/-- The struct build at lib.rs:125-227: ownership transfer of the pixel
vector (tag, pointer, length), field-by-field copy with `as c_uint`
narrowing, text encoding into zeroed buffers, D65 color-matrix lookup, and
the best-effort metadata fill (`meta = none` when `raw_metadata` failed). -/
def buildRawImage (img : NativeRawImage) (meta : Option NativeMetadata) :
    RawImage :=
  let dtl : DataType × Nat × Nat :=
    match img.data with
    | RawImageData.Integer d => (DataType.Integer, img.data_addr, d.length)
    | RawImageData.Float d => (DataType.Float, img.data_addr, d.length)
  { make := string_to_fixed_c_chars img.camera.make zeros32
    model := string_to_fixed_c_chars img.camera.model zeros32
    clean_make := string_to_fixed_c_chars img.camera.clean_make zeros32
    clean_model := string_to_fixed_c_chars img.camera.clean_model zeros32
    width := img.width % 2 ^ 32
    height := img.height % 2 ^ 32
    cpp := img.cpp % 2 ^ 32
    bps := img.bps % 2 ^ 32
    cfa := string_to_fixed_c_chars img.camera.cfa_name zeros32
    black_levels := img.blacklevel
    white_levels := img.whitelevel
    wb_coeffs := img.wb_coeffs
    color_matrix :=
      match img.color_matrix_d65 with
      | none => List.replicate 9 0
      | some cm => List.ofFn fun i : Fin 9 => cm.getD i 0
    exif :=
      match meta with
      | none => zeroExif
      | some m => fillExif m.exif
    data_type := dtl.1
    data_ptr := dtl.2.1
    data_len := dtl.2.2 }

/-- The closure passed to `std::panic::catch_unwind` (lib.rs:117-230): decoder
lookup, primary decode, struct build and metadata fetch. A panic in any of the
three collaborator calls escapes to `catch_unwind`; explicit errors from the
first two calls abort with formatted messages; a metadata error is absorbed. -/
def decodeBody (d : DecoderBehavior) : RustOutcome RawImage :=
  match d.get_decoder with
  | RustOutcome.panic => RustOutcome.panic
  | RustOutcome.err e => RustOutcome.err ("Failed to get decoder: " ++ e)
  | RustOutcome.ok _ =>
    match d.raw_image with
    | RustOutcome.panic => RustOutcome.panic
    | RustOutcome.err e => RustOutcome.err ("Failed to decode raw image: " ++ e)
    | RustOutcome.ok img =>
      match d.raw_metadata with
      | RustOutcome.panic => RustOutcome.panic
      | RustOutcome.err _ => RustOutcome.ok (buildRawImage img none)
      | RustOutcome.ok m => RustOutcome.ok (buildRawImage img (some m))

/-- Observable outcome of `decode_buffer`: the returned pointer (`none` =
null) and what was stored through `error_msg` (`none` = `error_msg` was null
and nothing was written; `some none` = null written; `some (some s)` = a
fresh diagnostic string `s` written). -/
structure DecodeResult where
  result : Option RawImage
  written_error : Option (Option String)
deriving DecidableEq

/-- Embedding of `decode_buffer(buffer, buffer_size, error_msg)`
(lib.rs:92-249). `buffer = none` models a null pointer;
`error_msg_present` models whether `error_msg` is non-null; `d` is the
decoder collaborator's behaviour on this input. -/
def decode_buffer (buffer : Option (List Nat)) (buffer_size : Nat)
    (error_msg_present : Bool) (d : DecoderBehavior) : DecodeResult :=
  if buffer.isNone ∨ buffer_size = 0 then
    { result := none
      written_error :=
        if error_msg_present then
          some (some (string_to_c_char "Empty buffer provided"))
        else none }
  else
    let r := decodeBody d
    if error_msg_present then
      match r with
      | RustOutcome.ok image =>
        { result := some image, written_error := some none }
      | RustOutcome.err e =>
        { result := none, written_error := some (some (string_to_c_char e)) }
      | RustOutcome.panic =>
        { result := none
          written_error :=
            some (some (string_to_c_char "Panic occurred during decoding")) }
    else
      match r with
      | RustOutcome.ok image => { result := some image, written_error := none }
      | RustOutcome.err _ => { result := none, written_error := none }
      | RustOutcome.panic => { result := none, written_error := none }

/-- A heap allocation crossing the boundary: the pixel vector (with element
type, storage address and element count) or the boxed `RawImage` struct. -/
inductive Alloc where
  | vecU16 : Nat → Nat → Alloc
  | vecF32 : Nat → Nat → Alloc
  | boxRawImage : RawImage → Alloc
deriving DecidableEq

/-- The allocations whose ownership a successful `decode_buffer` transfers to
the caller: the forgotten pixel vector (lib.rs:126-139; tagged `u16` for
`Integer` data, `f32` for `Float` data) and the `Box::into_raw` result struct
(lib.rs:229). -/
def transferredAllocs (img : NativeRawImage) (meta : Option NativeMetadata) :
    List Alloc :=
  (match img.data with
    | RawImageData.Integer d => [Alloc.vecU16 img.data_addr d.length]
    | RawImageData.Float d => [Alloc.vecF32 img.data_addr d.length]) ++
    [Alloc.boxRawImage (buildRawImage img meta)]

/-- Embedding of `free_image(decoded_image)` (lib.rs:252-273) as the list of
deallocations it performs: nothing on null; otherwise the pixel vector
reconstructed by `Vec::from_raw_parts` with the element type selected by the
tag, then the `Box::from_raw` struct itself. -/
def free_image : Option RawImage → List Alloc
  | none => []
  | some img =>
    (match img.data_type with
      | DataType.Integer => [Alloc.vecU16 img.data_ptr img.data_len]
      | DataType.Float => [Alloc.vecF32 img.data_ptr img.data_len]) ++
      [Alloc.boxRawImage img]

/-- The metadata argument `buildRawImage` ends up with, as a function of the
collaborator's `raw_metadata` outcome. -/
def metaOpt (d : DecoderBehavior) : Option NativeMetadata :=
  match d.raw_metadata with
  | RustOutcome.ok m => some m
  | _ => none

/-- A 32-byte text buffer is well-formed C text: it holds a zero byte and
every byte from the first zero on is zero. -/
def isZeroTerm (l : List Nat) : Bool :=
  l.contains 0 && (l.dropWhile (fun b => b != 0)).all (fun b => b == 0)

/-- A minimal concrete camera description, used to instantiate theorems. -/
def sampleCamera : Camera :=
  { make := [65], model := [66], clean_make := [], clean_model := []
    cfa_name := [] }

/-- A minimal concrete native decoded image with integer samples. -/
def sampleImg : NativeRawImage :=
  { width := 2, height := 1, cpp := 1, bps := 16
    blacklevel := [0, 0, 0, 0], whitelevel := [9, 9, 9, 9]
    wb_coeffs := [1, 1, 1, 0], color_matrix_d65 := none
    camera := sampleCamera, data := RawImageData.Integer [7, 8]
    data_addr := 1000 }

/-- A decoder behaviour whose lookup panics. -/
def dPanic : DecoderBehavior :=
  { get_decoder := RustOutcome.panic
    raw_image := RustOutcome.err "unreached"
    raw_metadata := RustOutcome.err "unreached" }

/-- A decoder behaviour that decodes `sampleImg` but fails the metadata
fetch. -/
def dOkNoMeta : DecoderBehavior :=
  { get_decoder := RustOutcome.ok ()
    raw_image := RustOutcome.ok sampleImg
    raw_metadata := RustOutcome.err "metadata failed" }

/-- A list that does not contain `0` has no member equal to `0`. -/
theorem not_mem_zero_of_contains_false {s : List Nat}
    (hs : s.contains 0 = false) : ∀ x ∈ s, x ≠ 0 := by
  intro x hx hx0
  subst hx0
  simp at hs
  exact hs hx

/-- An interior null makes the encoder behave as on the empty string
(`CString::new` failure, `unwrap_or_default`). -/
theorem string_to_fixed_interior_null {s : List Nat}
    (hs : s.contains 0 = true) (out : List Nat) :
    string_to_fixed_c_chars s out = string_to_fixed_c_chars [] out := by
  have hmem : (0 : Nat) ∈ s := List.elem_iff.mp hs
  simp [string_to_fixed_c_chars, cstringOrDefault, hmem]

/-- Closed form of the encoder on a null-free source of at least 31 bytes
and a 32-byte buffer: the first 31 source bytes followed by a forced
terminator. -/
theorem string_to_fixed_long {s out : List Nat} (hs : s.contains 0 = false)
    (hlen : 31 ≤ s.length) (hout : out.length = 32) :
    string_to_fixed_c_chars s out = s.take 31 ++ [0] := by
  unfold string_to_fixed_c_chars
  simp only [cstringOrDefault, hs, Bool.false_eq_true, if_false]
  have hmin : min (s ++ [0]).length out.length = 32 := by
    simp [hout]; omega
  rw [hmin, hout]
  simp only [if_pos rfl]
  rw [List.drop_eq_nil_of_le (by omega), List.append_nil]
  have hlen32 : ((s ++ [0]).take 32).length = 32 := by
    simp; omega
  have hset := List.set_eq_take_cons_drop (0 : Nat)
    (show 32 - 1 < ((s ++ [0]).take 32).length by omega)
  rw [hset]
  rw [List.drop_eq_nil_of_le (by omega)]
  rw [show (32 - 1 : Nat) = 31 from rfl, List.take_take,
    List.take_append_of_le_length (by omega)]
  simp

/-- Closed form of the encoder on a null-free source of at most 30 bytes and
the zeroed 32-byte buffer: the source followed by zero padding. -/
theorem string_to_fixed_short {s : List Nat} (hs : s.contains 0 = false)
    (hlen : s.length ≤ 30) :
    string_to_fixed_c_chars s zeros32 =
      s ++ List.replicate (32 - s.length) 0 := by
  unfold string_to_fixed_c_chars zeros32
  simp only [cstringOrDefault, hs, Bool.false_eq_true, if_false]
  have hmin : min (s ++ [0]).length (List.replicate 32 (0 : Nat)).length =
      s.length + 1 := by
    simp; omega
  rw [hmin]
  rw [if_neg (by simp; omega)]
  rw [List.take_of_length_le (by simp), List.drop_replicate]
  rw [List.append_assoc]
  congr 1
  rw [show (32 - (s.length + 1) : Nat) = 31 - s.length from by omega]
  rw [show (32 - s.length : Nat) = (31 - s.length) + 1 from by omega]
  rfl

/-- A null-free prefix followed by at least one zero is well-formed C
text. -/
theorem isZeroTerm_append_replicate {t : List Nat} {k : Nat}
    (ht : ∀ x ∈ t, x ≠ 0) (hk : 0 < k) :
    isZeroTerm (t ++ List.replicate k 0) = true := by
  unfold isZeroTerm
  rw [Bool.and_eq_true]
  constructor
  · have hmem : (0 : Nat) ∈ t ++ List.replicate k 0 :=
      List.mem_append_right _ (List.mem_replicate.mpr ⟨by omega, rfl⟩)
    simpa [List.contains] using List.elem_iff.mpr hmem
  · rw [List.dropWhile_append_of_pos (by intro a ha; simpa using ht a ha)]
    rw [List.dropWhile_replicate]
    simp

/-- Every encoder output over the zeroed 32-byte buffer is well-formed C
text: it holds a terminator and nothing but zeros after it. -/
theorem isZeroTerm_string_to_fixed (s : List Nat) :
    isZeroTerm (string_to_fixed_c_chars s zeros32) = true := by
  by_cases hs : s.contains 0 = true
  · rw [string_to_fixed_interior_null hs]
    rw [string_to_fixed_short (by decide) (by decide)]
    exact isZeroTerm_append_replicate (by simp) (by decide)
  · rw [Bool.not_eq_true] at hs
    by_cases hl : s.length ≤ 30
    · rw [string_to_fixed_short hs hl]
      exact isZeroTerm_append_replicate (not_mem_zero_of_contains_false hs)
        (by omega)
    · rw [string_to_fixed_long hs (by omega) (by decide)]
      rw [show ([0] : List Nat) = List.replicate 1 0 from rfl]
      exact isZeroTerm_append_replicate
        (fun x hx => not_mem_zero_of_contains_false hs x
          (List.mem_of_mem_take hx)) (by omega)

/-- An optional text value encoded into a zeroed buffer, or the zeroed
buffer itself, is well-formed C text. -/
theorem isZeroTerm_optField (o : Option (List Nat)) :
    isZeroTerm (match o with
      | none => zeros32
      | some s => string_to_fixed_c_chars s zeros32) = true := by
  cases o with
  | none => decide
  | some s => exact isZeroTerm_string_to_fixed s

/-- Inversion: a non-null `decode_buffer` result is exactly the struct built
from the decoded native image and the best-effort metadata. -/
theorem decode_result_some {b : Option (List Nat)} {n : Nat} {req : Bool}
    {d : DecoderBehavior} {r : RawImage}
    (h : (decode_buffer b n req d).result = some r) :
    ∃ img, d.raw_image = RustOutcome.ok img ∧
      r = buildRawImage img (metaOpt d) := by
  unfold decode_buffer at h
  by_cases hb : b = none ∨ n = 0
  · simp [hb] at h
  · simp only [hb, if_false] at h
    cases hg : d.get_decoder <;> cases hi : d.raw_image <;>
      cases hm : d.raw_metadata <;> cases req <;>
      simp_all [decodeBody, metaOpt]

/-- C1: when the decode sequence (decoder lookup, primary decode or the rest
of the `catch_unwind` body) ends in a panic, `decode_buffer` on a non-empty
input returns a null result and, when an error location was supplied, writes
the generic diagnostic "Panic occurred during decoding" there instead of
letting the unwind escape. -/
theorem decode_buffer_panic_barrier (b : List Nat) (n : Nat) (req : Bool)
    (d : DecoderBehavior) (hn : n ≠ 0)
    (hp : decodeBody d = RustOutcome.panic) :
    (decode_buffer (some b) n req d).result = none ∧
    (req = true → (decode_buffer (some b) n req d).written_error =
      some (some "Panic occurred during decoding")) := by
  cases req <;> simp [decode_buffer, hn, hp, string_to_c_char]

/-- Witness for C1: a lookup panic at a concrete non-empty input. -/
theorem decode_buffer_panic_barrier_witness :
    (decode_buffer (some [1]) 1 true dPanic).result = none ∧
    (decode_buffer (some [1]) 1 true dPanic).written_error =
      some (some "Panic occurred during decoding") := by
  have h := decode_buffer_panic_barrier [1] 1 true dPanic (by decide) rfl
  exact ⟨h.1, h.2 rfl⟩

/-- C2: a null buffer or a zero length yields a null result, the
"Empty buffer provided" diagnostic when an error location was supplied, and
the decoder collaborator is never consulted: the outcome is the same for
every decoder behaviour. -/
theorem decode_buffer_empty_input (b : Option (List Nat)) (n : Nat)
    (req : Bool) (d d' : DecoderBehavior) (h : b = none ∨ n = 0) :
    decode_buffer b n req d = decode_buffer b n req d' ∧
    (decode_buffer b n req d).result = none ∧
    (req = true → (decode_buffer b n req d).written_error =
      some (some "Empty buffer provided")) := by
  cases req <;> simp [decode_buffer, h, string_to_c_char]

/-- Witness for C2: a null buffer, two different decoder behaviours. -/
theorem decode_buffer_empty_input_witness :
    decode_buffer none 5 true dPanic = decode_buffer none 5 true dOkNoMeta ∧
    (decode_buffer none 5 true dPanic).result = none ∧
    (decode_buffer none 5 true dPanic).written_error =
      some (some "Empty buffer provided") := by
  have h := decode_buffer_empty_input none 5 true dPanic dOkNoMeta
    (Or.inl rfl)
  exact ⟨h.1, h.2.1, h.2.2 rfl⟩

/-- C3: with an error location supplied, a successful decode (non-empty
input, decode body ok) returns the non-null built struct and clears the
location to null, and every failure kind (empty input, explicit decode
error, panic) returns null and writes a diagnostic string; with no error
location, failure still yields null and nothing is ever written. -/
theorem decode_buffer_error_protocol (b : Option (List Nat)) (n : Nat)
    (d : DecoderBehavior) :
    (∀ img, ¬(b = none ∨ n = 0) → decodeBody d = RustOutcome.ok img →
      (decode_buffer b n true d).result = some img ∧
      (decode_buffer b n true d).written_error = some none ∧
      (decode_buffer b n false d).result = some img) ∧
    (((b = none ∨ n = 0) ∨ (∃ e, decodeBody d = RustOutcome.err e) ∨
        decodeBody d = RustOutcome.panic) →
      (decode_buffer b n true d).result = none ∧
      (∃ msg, (decode_buffer b n true d).written_error = some (some msg)) ∧
      (decode_buffer b n false d).result = none) ∧
    (decode_buffer b n false d).written_error = none := by
  refine ⟨?_, ?_, ?_⟩
  · intro img hb hok
    simp [decode_buffer, hb, hok]
  · intro hf
    by_cases hb : b = none ∨ n = 0
    · simp [decode_buffer, hb, string_to_c_char]
    · rcases hf with hb' | ⟨e, he⟩ | hp
      · exact absurd hb' hb
      · simp [decode_buffer, hb, he]
      · simp [decode_buffer, hb, hp]
  · by_cases hb : b = none ∨ n = 0
    · simp [decode_buffer, hb]
    · cases hr : decodeBody d <;> simp [decode_buffer, hb, hr]

/-- Witness for C3: a successful concrete decode returns the built struct
and clears the error slot, a panicking one returns null and fills it, and
omitting the error location writes nothing. -/
theorem decode_buffer_error_protocol_witness :
    (decode_buffer (some [1]) 1 true dOkNoMeta).result =
      some (buildRawImage sampleImg none) ∧
    (decode_buffer (some [1]) 1 true dOkNoMeta).written_error = some none ∧
    (decode_buffer (some [1]) 1 false dOkNoMeta).result =
      some (buildRawImage sampleImg none) ∧
    (decode_buffer (some [1]) 1 true dPanic).result = none ∧
    (∃ msg, (decode_buffer (some [1]) 1 true dPanic).written_error =
      some (some msg)) ∧
    (decode_buffer (some [1]) 1 false dPanic).result = none ∧
    (decode_buffer (some [1]) 1 false dOkNoMeta).written_error = none := by
  have hs := (decode_buffer_error_protocol (some [1]) 1 dOkNoMeta).1
    (buildRawImage sampleImg none) (by decide) rfl
  have hf := (decode_buffer_error_protocol (some [1]) 1 dPanic).2.1
    (Or.inr (Or.inr rfl))
  exact ⟨hs.1, hs.2.1, hs.2.2, hf.1, hf.2.1, hf.2.2,
    (decode_buffer_error_protocol (some [1]) 1 dOkNoMeta).2.2⟩

/-- Reclaiming the struct built from a native image releases exactly the
allocations that the build transferred. -/
theorem free_image_buildRawImage (img : NativeRawImage)
    (m : Option NativeMetadata) :
    free_image (some (buildRawImage img m)) = transferredAllocs img m := by
  cases hd : img.data <;>
    simp [free_image, buildRawImage, transferredAllocs, hd]

/-- C5: `free_image` does nothing on null, and on a result of a successful
`decode_buffer` it destroys the pixel vector through the recorded type tag,
address and element count, then the struct itself — exactly the storage the
decode transferred. -/
theorem free_image_frees_exactly_transferred (b : Option (List Nat)) (n : Nat)
    (req : Bool) (d : DecoderBehavior) (img : NativeRawImage) (r : RawImage)
    (h : (decode_buffer b n req d).result = some r)
    (himg : d.raw_image = RustOutcome.ok img) :
    free_image none = [] ∧
    free_image (some r) = transferredAllocs img (metaOpt d) := by
  obtain ⟨img', himg', hr⟩ := decode_result_some h
  rw [himg] at himg'
  injection himg' with he
  subst he
  subst hr
  exact ⟨rfl, free_image_buildRawImage img (metaOpt d)⟩

/-- Witness for C5: reclaiming the concrete decoded sample. -/
theorem free_image_frees_exactly_transferred_witness :
    free_image none = [] ∧
    free_image (some (buildRawImage sampleImg none)) =
      transferredAllocs sampleImg (metaOpt dOkNoMeta) := by
  exact free_image_frees_exactly_transferred (some [1]) 1 true dOkNoMeta
    sampleImg (buildRawImage sampleImg none) (by decide) rfl

/-- C4: a successful decode records as `data_len` the native pixel vector's
element count — equal to width × height × channels when the decoder output
satisfies that invariant and the dimensions survive the `c_uint` narrowing —
and the `data_type` tag is `Integer` exactly for 16-bit integer sample data
and `Float` exactly for 32-bit float sample data. -/
theorem decode_buffer_data_descriptor (b : Option (List Nat)) (n : Nat)
    (req : Bool) (d : DecoderBehavior) (img : NativeRawImage) (r : RawImage)
    (h : (decode_buffer b n req d).result = some r)
    (himg : d.raw_image = RustOutcome.ok img)
    (hlen : dataLen img.data = img.width * img.height * img.cpp)
    (hw : img.width < 2 ^ 32) (hh : img.height < 2 ^ 32)
    (hc : img.cpp < 2 ^ 32) :
    r.data_len = r.width * r.height * r.cpp ∧
    (r.data_type = DataType.Integer ↔
      ∃ dd, img.data = RawImageData.Integer dd) ∧
    (r.data_type = DataType.Float ↔
      ∃ dd, img.data = RawImageData.Float dd) := by
  obtain ⟨img', himg', hr⟩ := decode_result_some h
  rw [himg] at himg'
  injection himg' with he
  subst he
  subst hr
  cases hd : img.data <;>
    simp_all [buildRawImage, dataLen, Nat.mod_eq_of_lt, hw, hh, hc]

/-- Witness for C4: the concrete 2×1×1 integer-sample decode. -/
theorem decode_buffer_data_descriptor_witness :
    (buildRawImage sampleImg none).data_len =
      (buildRawImage sampleImg none).width *
      (buildRawImage sampleImg none).height *
      (buildRawImage sampleImg none).cpp ∧
    ((buildRawImage sampleImg none).data_type = DataType.Integer ↔
      ∃ dd, sampleImg.data = RawImageData.Integer dd) ∧
    ((buildRawImage sampleImg none).data_type = DataType.Float ↔
      ∃ dd, sampleImg.data = RawImageData.Float dd) := by
  exact decode_buffer_data_descriptor (some [1]) 1 true dOkNoMeta sampleImg
    (buildRawImage sampleImg none) (by decide) rfl (by decide) (by decide)
    (by decide) (by decide)

/-- Rebuilding a 9-element list from its entries is the identity. -/
theorem ofFn_getD_of_length_nine {cm : List Nat} (h9 : cm.length = 9) :
    (List.ofFn fun i : Fin 9 => cm.getD i 0) = cm := by
  apply List.ext_getElem
  · simp [h9]
  · intro i h1 h2
    simp only [List.getElem_ofFn]
    simp [List.getD_eq_getElem?_getD, List.getElem?_eq_getElem h2]

/-- C7: a successful decode leaves the 9-element color matrix all zeros when
the decoder exposes no matrix for the D65 reference illuminant, and copies
all 9 entries verbatim when it does. -/
theorem decode_buffer_color_matrix (b : Option (List Nat)) (n : Nat)
    (req : Bool) (d : DecoderBehavior) (img : NativeRawImage) (r : RawImage)
    (h : (decode_buffer b n req d).result = some r)
    (himg : d.raw_image = RustOutcome.ok img) :
    (img.color_matrix_d65 = none → r.color_matrix = List.replicate 9 0) ∧
    (∀ cm, img.color_matrix_d65 = some cm → cm.length = 9 →
      r.color_matrix = cm) := by
  obtain ⟨img', himg', hr⟩ := decode_result_some h
  rw [himg] at himg'
  injection himg' with he
  subst he
  subst hr
  constructor
  · intro hcm
    simp [buildRawImage, hcm]
  · intro cm hcm h9
    have hcol : (buildRawImage img (metaOpt d)).color_matrix =
        List.ofFn fun i : Fin 9 => cm.getD i 0 := by
      simp only [buildRawImage, hcm]
    rw [hcol, ofFn_getD_of_length_nine h9]

/-- Witness for C7: the concrete sample exposes no D65 matrix, so the result
matrix is all zeros. -/
theorem decode_buffer_color_matrix_witness :
    (buildRawImage sampleImg none).color_matrix = List.replicate 9 0 := by
  exact (decode_buffer_color_matrix (some [1]) 1 true dOkNoMeta sampleImg
    (buildRawImage sampleImg none) (by decide) rfl).1 rfl

/-- C10: whether the caller supplies an error output location has no
influence on the decode result itself — the returned pointer is identical in
both runs for any input and any decoder behaviour. -/
theorem decode_buffer_result_independent_of_error_channel
    (b : Option (List Nat)) (n : Nat) (d : DecoderBehavior) :
    (decode_buffer b n true d).result = (decode_buffer b n false d).result := by
  by_cases hb : b = none ∨ n = 0
  · simp [decode_buffer, hb]
  · cases hr : decodeBody d <;> simp [decode_buffer, hb, hr]

/-- C8: on any null-free source of at least 32 bytes and any 32-byte buffer,
the encoder yields 32 bytes whose first 31 equal the first 31 source bytes
with a zero in the 32nd slot; a source with an embedded null is encoded as
the empty string instead of failing. -/
theorem string_to_fixed_c_chars_truncation :
    (∀ s out : List Nat, 32 ≤ s.length → s.contains 0 = false →
      out.length = 32 →
      (string_to_fixed_c_chars s out).length = 32 ∧
      (string_to_fixed_c_chars s out).take 31 = s.take 31 ∧
      (string_to_fixed_c_chars s out).getD 31 0 = 0) ∧
    (∀ s out : List Nat, s.contains 0 = true →
      string_to_fixed_c_chars s out = string_to_fixed_c_chars [] out) := by
  constructor
  · intro s out h32 hs hout
    rw [string_to_fixed_long hs (by omega) hout]
    refine ⟨by simp <;> omega, ?_, ?_⟩
    · rw [List.take_append_of_le_length (by simp <;> omega), List.take_take]
      simp
    · rw [List.getD_eq_getElem?_getD,
        List.getElem?_append_right (by simp <;> omega)]
      simp [show 31 - (s.take 31).length = 0 from by simp <;> omega]
  · intro s out hs
    exact string_to_fixed_interior_null hs out

/-- Witness for C8: a 40-ASCII-character model string and an embedded-null
string, both over the zeroed 32-byte buffer. -/
theorem string_to_fixed_c_chars_truncation_witness :
    (string_to_fixed_c_chars (List.replicate 40 65) zeros32).length = 32 ∧
    (string_to_fixed_c_chars (List.replicate 40 65) zeros32).take 31 =
      (List.replicate 40 65).take 31 ∧
    (string_to_fixed_c_chars (List.replicate 40 65) zeros32).getD 31 0 = 0 ∧
    string_to_fixed_c_chars [66, 0, 67] zeros32 =
      string_to_fixed_c_chars [] zeros32 := by
  have h := string_to_fixed_c_chars_truncation
  have h1 := h.1 (List.replicate 40 65) zeros32 (by decide) (by decide)
    (by decide)
  exact ⟨h1.1, h1.2.1, h1.2.2, h.2 [66, 0, 67] zeros32 (by decide)⟩

/-- C9: every 32-byte fixed text field of a successfully returned structure
is null-terminated with only zeros after the first zero byte. -/
theorem decode_buffer_text_fields_wellformed (b : Option (List Nat)) (n : Nat)
    (req : Bool) (d : DecoderBehavior) (r : RawImage)
    (h : (decode_buffer b n req d).result = some r) :
    isZeroTerm r.make = true ∧ isZeroTerm r.model = true ∧
    isZeroTerm r.clean_make = true ∧ isZeroTerm r.clean_model = true ∧
    isZeroTerm r.cfa = true ∧
    isZeroTerm r.exif.date_time_original = true ∧
    isZeroTerm r.exif.lens_make = true ∧
    isZeroTerm r.exif.lens_model = true := by
  obtain ⟨img, himg, hr⟩ := decode_result_some h
  subst hr
  refine ⟨isZeroTerm_string_to_fixed _, isZeroTerm_string_to_fixed _,
    isZeroTerm_string_to_fixed _, isZeroTerm_string_to_fixed _,
    isZeroTerm_string_to_fixed _, ?_, ?_, ?_⟩ <;>
    cases hm : metaOpt d with
  | none =>
    simp only [buildRawImage, hm, zeroExif]
    decide
  | some m =>
    first
    | exact (by simpa [buildRawImage, hm, fillExif] using
        isZeroTerm_optField m.exif.date_time_original)
    | exact (by simpa [buildRawImage, hm, fillExif] using
        isZeroTerm_optField m.exif.lens_make)
    | exact (by simpa [buildRawImage, hm, fillExif] using
        isZeroTerm_optField m.exif.lens_model)

/-- Witness for C9: the concrete sample decode. -/
theorem decode_buffer_text_fields_wellformed_witness :
    isZeroTerm (buildRawImage sampleImg none).make = true ∧
    isZeroTerm (buildRawImage sampleImg none).model = true ∧
    isZeroTerm (buildRawImage sampleImg none).clean_make = true ∧
    isZeroTerm (buildRawImage sampleImg none).clean_model = true ∧
    isZeroTerm (buildRawImage sampleImg none).cfa = true ∧
    isZeroTerm (buildRawImage sampleImg none).exif.date_time_original = true ∧
    isZeroTerm (buildRawImage sampleImg none).exif.lens_make = true ∧
    isZeroTerm (buildRawImage sampleImg none).exif.lens_model = true := by
  exact decode_buffer_text_fields_wellformed (some [1]) 1 true dOkNoMeta
    (buildRawImage sampleImg none) (by decide)

/-- C6 counterexample: a decode whose metadata fetch fails still copies the
camera identification fields from the primary decode — the make field of the
returned struct is not at its zero-initialised default, contrary to the
claim that the entire metadata record (camera identification included) is
left zeroed. -/
theorem decode_buffer_metadata_counterexample :
    (decode_buffer (some [1]) 1 true dOkNoMeta).result =
      some (buildRawImage sampleImg none) ∧
    dOkNoMeta.raw_metadata = RustOutcome.err "metadata failed" ∧
    (buildRawImage sampleImg none).make ≠ List.replicate 32 0 := by
  decide

/-- C6 (amended): when only the metadata fetch fails, all Exif fields of the
returned structure keep their zero-initialised defaults, the result is
non-null with no error reported, and the camera identification fields are
filled from the primary decode's camera information. -/
theorem decode_buffer_metadata_best_effort (b : List Nat) (n : Nat)
    (req : Bool) (d : DecoderBehavior) (img : NativeRawImage) (e : String)
    (hn : n ≠ 0) (hg : d.get_decoder = RustOutcome.ok ())
    (hi : d.raw_image = RustOutcome.ok img)
    (hm : d.raw_metadata = RustOutcome.err e) :
    (decode_buffer (some b) n req d).result =
      some (buildRawImage img none) ∧
    (buildRawImage img none).exif = zeroExif ∧
    (req = true →
      (decode_buffer (some b) n req d).written_error = some none) ∧
    (buildRawImage img none).make =
      string_to_fixed_c_chars img.camera.make zeros32 := by
  have hbody : decodeBody d = RustOutcome.ok (buildRawImage img none) := by
    simp [decodeBody, hg, hi, hm]
  refine ⟨?_, rfl, ?_, rfl⟩ <;> cases req <;>
    simp [decode_buffer, hn, hbody]

/-- Witness for C6 (amended): the concrete sample decode with a failing
metadata fetch. -/
theorem decode_buffer_metadata_best_effort_witness :
    (decode_buffer (some [1]) 1 true dOkNoMeta).result =
      some (buildRawImage sampleImg none) ∧
    (buildRawImage sampleImg none).exif = zeroExif ∧
    (decode_buffer (some [1]) 1 true dOkNoMeta).written_error = some none ∧
    (buildRawImage sampleImg none).make =
      string_to_fixed_c_chars sampleImg.camera.make zeros32 := by
  have h := decode_buffer_metadata_best_effort [1] 1 true dOkNoMeta sampleImg
    "metadata failed" (by decide) rfl rfl rfl
  exact ⟨h.1, h.2.1, h.2.2.1 rfl, h.2.2.2⟩

end RawlerFFI
